import Mathlib

/-!
Shallow embedding of the trading-bot repository (price-alert scheduler,
APScheduler job registration, broadcast fan-out, Myfxbook calendar scraping
and the add-alert handler), together with theorems checking the spec's
claims against it.

Python floats are modelled as rationals (ℚ): the comparisons the code
performs (`>=`, `<=`) are exact on the represented values.  Async sends and
HTTP fetches are modelled by their outcomes: a `sendOk` predicate telling
whether `bot.send_message` succeeds for a given alert/user, and a
`fetch : String → Option ℚ` returning `none` when the price fetch fails
(either a raised `ClientError`/exception or an invalid payload — both end
up filtered out by the `isinstance(price, float)` check in the code).
-/

namespace TradingBot

/-- `app/db.py`, `class AlertType`: `ABOVE = "above"`, `BELOW = "below"`. -/
inductive AlertType where
  | ABOVE
  | BELOW
deriving DecidableEq

/-- `app/db.py`, `class PriceAlert` (the columns the scheduler logic reads;
`created_at`/`triggered_at` timestamps carry no logic and are omitted). -/
structure PriceAlert where
  id : Nat
  user_id : Nat
  asset : String
  target_price : ℚ
  alert_type : AlertType
  is_active : Bool
  is_one_time : Bool
deriving DecidableEq

/-- `app/scheduler.py` line 199–200: the `triggered` expression of
`check_price_alerts_job`. -/
def evalTriggered (a : PriceAlert) (p : ℚ) : Bool :=
  (a.alert_type == AlertType.ABOVE && decide (a.target_price ≤ p)) ||
  (a.alert_type == AlertType.BELOW && decide (p ≤ a.target_price))

/-- Observable outcome of one tick's alert loop: `attempts` records, in
order, `(alert.id, send succeeded?)` for every alert whose `triggered`
condition fired (a `bot.send_message` was attempted for each of these);
`queued` is `triggered_one_time_ids`, the ids queued for the end-of-tick
batched deactivation. -/
structure TickResult where
  attempts : List (Nat × Bool)
  queued : List Nat
deriving DecidableEq

/-- The `for alert in active_alerts` loop of `check_price_alerts_job`
(`app/scheduler.py` lines 194–217).  An alert whose asset has no fetched
price is skipped (`continue`).  A triggered alert gets a send attempt; the
`triggered_one_time_ids.append` sits inside the `try` *after* the awaited
send, so it only runs when the send succeeded — a raised send error jumps
to the `except` clause and the id is not queued. -/
def runAlerts (prices : String → Option ℚ) (sendOk : PriceAlert → Bool) :
    List PriceAlert → TickResult
  | [] => ⟨[], []⟩
  | a :: rest =>
    let r := runAlerts prices sendOk rest
    match prices a.asset with
    | none => r
    | some p =>
      if evalTriggered a p then
        if sendOk a then
          ⟨(a.id, true) :: r.attempts, (if a.is_one_time then [a.id] else []) ++ r.queued⟩
        else
          ⟨(a.id, false) :: r.attempts, r.queued⟩
      else r

/-- The end-of-tick batch (`app/scheduler.py` lines 219–224):
`UPDATE price_alerts SET is_active=false WHERE id IN triggered_one_time_ids`. -/
def applyDeactivation (alerts : List PriceAlert) (ids : List Nat) : List PriceAlert :=
  alerts.map (fun a => if a.id ∈ ids then { a with is_active := false } else a)

/-- `DB.get_distinct_alert_assets`: distinct assets of active alerts
(SQL `SELECT DISTINCT`; the set, not the order, is ever used). -/
def distinctAlertAssets (alerts : List PriceAlert) : List String :=
  ((alerts.filter (fun a => a.is_active)).map (fun a => a.asset)).dedup

/-- The `asset_prices` dict of `check_price_alerts_job` (line 185), as a
lookup: a price for exactly the active assets whose fetch succeeded. -/
def pricesOf (alerts : List PriceAlert) (fetch : String → Option ℚ) :
    String → Option ℚ :=
  fun x => if x ∈ distinctAlertAssets alerts then fetch x else none

/-- `check_price_alerts_job` (`app/scheduler.py` lines 176–225) over the
alert table `alerts`.  Returns the tick's observable result together with
the table after the batched deactivation.  The two early returns (no
active asset; no price fetched at all) leave the table untouched. -/
def checkPriceAlertsJob (alerts : List PriceAlert) (fetch : String → Option ℚ)
    (sendOk : PriceAlert → Bool) : TickResult × List PriceAlert :=
  let assets := distinctAlertAssets alerts
  if assets.isEmpty then (⟨[], []⟩, alerts)
  else if assets.all (fun x => (fetch x).isNone) then (⟨[], []⟩, alerts)
  else
    let r := runAlerts (pricesOf alerts fetch) sendOk
      (alerts.filter (fun a => a.is_active))
    (r, applyDeactivation alerts r.queued)

/-- An alert fires this tick iff its asset's price was fetched and the
`triggered` condition holds at that price. -/
def firedB (prices : String → Option ℚ) (a : PriceAlert) : Bool :=
  match prices a.asset with
  | none => false
  | some p => evalTriggered a p

/-- An alert's id is queued for deactivation iff it fired, its
notification send succeeded, and it is one-time. -/
def queuedB (prices : String → Option ℚ) (sendOk : PriceAlert → Bool)
    (a : PriceAlert) : Bool :=
  firedB prices a && sendOk a && a.is_one_time

/-- The write operations of `app/db.py` that touch the `price_alerts`
table, plus the scheduler tick: `DB.add_price_alert` (creates a fresh row,
active by default), `DB.deactivate_price_alert`, `DB.delete_price_alert`,
and `check_price_alerts_job`'s evaluation-plus-batched-update. -/
inductive DBOp where
  | addAlert (a : PriceAlert)
  | deactivateAlert (i : Nat)
  | deleteAlert (i : Nat)
  | tick (fetch : String → Option ℚ) (sendOk : PriceAlert → Bool)

/-- Effect of each operation on the `price_alerts` table. -/
def applyOp (s : List PriceAlert) : DBOp → List PriceAlert
  | .addAlert a => s ++ [{ a with is_active := true }]
  | .deactivateAlert i =>
      s.map (fun b => if b.id = i then { b with is_active := false } else b)
  | .deleteAlert i => s.filter (fun b => b.id ≠ i)
  | .tick fetch sendOk => (checkPriceAlertsJob s fetch sendOk).2

/-- A job as registered with APScheduler: id, trigger kind, the cron
hour/minute (absent for interval jobs) and the timezone argument passed to
`add_job` (`none` when the call passes no `timezone=`, in which case
APScheduler falls back to the scheduler's own default timezone). -/
structure SchedJob where
  id : String
  trigger : String
  hour : Option Nat
  minute : Option Nat
  tz : Option String
deriving DecidableEq

/-- `app/db.py`, `class ScheduledTask`: persisted analysis task with its
stored `timezone` column (default `'Asia/Baghdad'`). -/
structure ScheduledTask where
  job_id : String
  asset : String
  hour : Nat
  minute : Nat
  timezone : String
deriving DecidableEq

/-- `scheduler.add_job(..., id=jid, replace_existing=True)`: any live job
with the same id is replaced by the new one. -/
def addJob (jobs : List SchedJob) (j : SchedJob) : List SchedJob :=
  (jobs.filter (fun x => x.id ≠ j.id)) ++ [j]

/-- `app/handlers/admin.py` line 239: `job_id = f"task_{asset}_{hour}_{minute}"`. -/
def taskJobId (asset : String) (hour minute : Nat) : String :=
  "task_" ++ asset ++ "_" ++ toString hour ++ "_" ++ toString minute

/-- The job `setup_scheduler` registers for a persisted task
(`app/scheduler.py` line 271): cron on the task's hour/minute, **no**
`timezone=` argument. -/
def analysisJob (t : ScheduledTask) : SchedJob :=
  { id := t.job_id, trigger := "cron", hour := some t.hour,
    minute := some t.minute, tz := none }

/-- `app/scheduler.py` line 273: the 1-minute interval alert checker. -/
def priceAlertCheckerJob : SchedJob :=
  { id := "price_alert_checker", trigger := "interval",
    hour := none, minute := none, tz := none }

/-- `app/scheduler.py` lines 275–279: the daily calendar job, cron 02:00
with `timezone=timezone('Asia/Baghdad')`. -/
def dailyCalendarJob : SchedJob :=
  { id := "daily_calendar_sender", trigger := "cron",
    hour := some 2, minute := some 0, tz := some "Asia/Baghdad" }

/-- `setup_scheduler` (`app/scheduler.py` lines 267–281): registers one
analysis job per persisted task, then the alert checker, then the daily
calendar job, all with `replace_existing=True`. -/
def setupScheduler (tasks : List ScheduledTask) (jobs : List SchedJob) : List SchedJob :=
  addJob (addJob (tasks.foldl (fun js t => addJob js (analysisJob t)) jobs)
    priceAlertCheckerJob) dailyCalendarJob

/-- The job `add_task_minute_handler` registers (`app/handlers/admin.py`
line 247): cron on the given hour/minute, id from `taskJobId`, no
`timezone=` argument. -/
def handlerJob (asset : String) (hour minute : Nat) : SchedJob :=
  { id := taskJobId asset hour minute, trigger := "cron", hour := some hour,
    minute := some minute, tz := none }

/-- The `ScheduledTask` row `DB.add_task` inserts for the handler: no
timezone is passed, so the column default `'Asia/Baghdad'` applies. -/
def handlerTask (asset : String) (hour minute : Nat) : ScheduledTask :=
  { job_id := taskJobId asset hour minute, asset := asset, hour := hour,
    minute := minute, timezone := "Asia/Baghdad" }

/-- `add_task_minute_handler` (`app/handlers/admin.py` lines 232–250),
after input validation: computes the job id from (asset, hour, minute)
only, refuses when a live job with that id exists, otherwise persists the
task and registers the job with `replace_existing=True`.
Returns (live jobs, task table, added?). -/
def addTaskMinuteHandler (jobs : List SchedJob) (tasks : List ScheduledTask)
    (asset : String) (hour minute : Nat) :
    List SchedJob × List ScheduledTask × Bool :=
  let jid := taskJobId asset hour minute
  if jobs.any (fun x => x.id = jid) then (jobs, tasks, false)
  else (addJob jobs (handlerJob asset hour minute),
        tasks ++ [handlerTask asset hour minute], true)

/-- `asyncio.gather(*tasks, return_exceptions=True)` over one
`bot.send_message` per recipient: every send is attempted and its outcome
(success / raised exception) recorded in order
(`app/handlers/admin.py` lines 327–328, `app/scheduler.py` lines 258–259). -/
def broadcastResults (userIds : List Nat) (sendOk : Nat → Bool) : List Bool :=
  userIds.map sendOk

/-- The counting loop of `send_broadcast_confirm_handler`
(`app/handlers/admin.py` lines 330–334): `sent += 1` for a non-exception
result, `failed += 1` for an exception. -/
def broadcastCounts (results : List Bool) : Nat × Nat :=
  results.foldl (fun sf r => if r then (sf.1 + 1, sf.2) else (sf.1, sf.2 + 1)) (0, 0)

/-- Split a character list at every occurrence of `sep` (Python
`str.split(sep)` for a one-character separator; always non-empty). -/
def splitChar (sep : Char) : List Char → List (List Char)
  | [] => [[]]
  | c :: cs =>
    match splitChar sep cs with
    | [] => [[c]]
    | h :: t => if c = sep then [] :: h :: t else (c :: h) :: t

/-- Python `str.strip()`: drop whitespace from both ends. -/
def trimWs (l : List Char) : List Char :=
  ((l.dropWhile (fun c => c.isWhitespace)).reverse.dropWhile
    (fun c => c.isWhitespace)).reverse

/-- Python `str.upper()` (ASCII suffices for the formats involved). -/
def upperChars (l : List Char) : List Char := l.map (fun c => c.toUpper)

/-- All characters are decimal digits and the list is non-empty. -/
def isDigitStr (s : List Char) : Bool :=
  decide (0 < s.length) && s.all (fun c => c.isDigit)

/-- Numeric value of a digit string. -/
def natOfDigits (s : List Char) : Nat :=
  s.foldl (fun n c => n * 10 + (c.toNat - 48)) 0

/-- `strptime` field `%M`, regex `([0-5]\d|\d)`: one or two digits, value
at most 59. -/
def validMinuteStr (s : List Char) : Bool :=
  isDigitStr s && decide (s.length ≤ 2) && decide (natOfDigits s ≤ 59)

/-- `strptime` field `%H`, regex `(2[0-3]|[0-1]\d|\d)`: one or two digits,
value at most 23. -/
def validHour24Str (s : List Char) : Bool :=
  isDigitStr s && decide (s.length ≤ 2) && decide (natOfDigits s ≤ 23)

/-- `strptime` field `%I`, regex `(1[0-2]|0[1-9]|[1-9])`: one or two
digits, value between 1 and 12 (so `0` and `00` are rejected). -/
def validHour12Str (s : List Char) : Bool :=
  isDigitStr s && decide (s.length ≤ 2) && decide (1 ≤ natOfDigits s)
    && decide (natOfDigits s ≤ 12)

/-- `datetime.strptime(time_part.upper(), "%I:%M%p").time()`
(`app/scheduler.py` line 55): 12-hour clock with mandatory AM/PM suffix,
converted to a 24-hour (hour, minute) pair the way `strptime` does
(12AM → 0, 12PM → 12, otherwise PM adds 12). -/
def parseTime12 (s : List Char) : Option (Nat × Nat) :=
  match splitChar ':' s with
  | [hs, rest] =>
    let suffix := rest.drop (rest.length - 2)
    let ms := rest.take (rest.length - 2)
    if (suffix == ['A', 'M'] || suffix == ['P', 'M'])
        && validHour12Str hs && validMinuteStr ms then
      let h := natOfDigits hs
      let h24 := if suffix == ['P', 'M'] then (if h == 12 then 12 else h + 12)
                 else (if h == 12 then 0 else h)
      some (h24, natOfDigits ms)
    else none
  | _ => none

/-- `datetime.strptime(time_part, "%H:%M").time()` (`app/scheduler.py`
line 57): 24-hour clock. -/
def parseTime24 (s : List Char) : Option (Nat × Nat) :=
  match splitChar ':' s with
  | [hs, ms] =>
    if validHour24Str hs && validMinuteStr ms then
      some (natOfDigits hs, natOfDigits ms)
    else none
  | _ => none

/-- The nested `try/except ValueError` of `_parse_event_datetime`
(`app/scheduler.py` lines 54–57): try the 12-hour format on the uppercased
time string first, fall back to the 24-hour format when it fails. -/
def parseEventTime (tp : List Char) : Option (Nat × Nat) :=
  match parseTime12 (upperChars tp) with
  | some v => some v
  | none => parseTime24 tp

/-- English month abbreviations for `strptime` field `%b` (matched
case-insensitively by Python). -/
def monthAbbrevs : List (List Char) :=
  [['J','A','N'], ['F','E','B'], ['M','A','R'], ['A','P','R'],
   ['M','A','Y'], ['J','U','N'], ['J','U','L'], ['A','U','G'],
   ['S','E','P'], ['O','C','T'], ['N','O','V'], ['D','E','C']]

def monthOfAbbrev (s : List Char) : Option Nat :=
  ((monthAbbrevs).indexOf? (upperChars s)).map (fun i => i + 1)

/-- `strptime` field `%d`, regex `(3[01]|[12]\d|0[1-9]|[1-9])`. -/
def validDayStr (s : List Char) : Bool :=
  isDigitStr s && decide (s.length ≤ 2) && decide (1 ≤ natOfDigits s)
    && decide (natOfDigits s ≤ 31)

def daysInMonth (year month : Nat) : Nat :=
  if month == 2 then
    (if year % 4 == 0 && (year % 100 != 0 || year % 400 == 0) then 29 else 28)
  else if month == 4 || month == 6 || month == 9 || month == 11 then 30
  else 31

/-- `datetime.strptime(f"{date_part} {current_year}", "%b %d %Y").date()`
(`app/scheduler.py` line 50): month abbreviation and day, validated
against the month length of the current year (out-of-range days raise
`ValueError` in Python and yield `none` here). -/
def parseDateBD (year : Nat) (datePart : List Char) : Option (Nat × Nat) :=
  match (splitChar ' ' datePart).filter (fun p => p ≠ []) with
  | [monStr, dayStr] =>
    match monthOfAbbrev monStr with
    | none => none
    | some m =>
      if validDayStr dayStr && decide (natOfDigits dayStr ≤ daysInMonth year m) then
        some (m, natOfDigits dayStr)
      else none
  | _ => none

/-- A Baghdad-local calendar date. -/
structure Date where
  year : Nat
  month : Nat
  day : Nat
deriving DecidableEq

def nextDay (d : Date) : Date :=
  if d.day < daysInMonth d.year d.month then ⟨d.year, d.month, d.day + 1⟩
  else if d.month < 12 then ⟨d.year, d.month + 1, 1⟩
  else ⟨d.year + 1, 1, 1⟩

/-- A parsed, Baghdad-localized event instant (`datetime_obj`). -/
structure EventDT where
  date : Date
  hour : Nat
  minute : Nat
deriving DecidableEq

/-- `MyfxbookCalendarScraper._parse_event_datetime` (`app/scheduler.py`
lines 42–63): split on the comma, parse the date part with `%b %d %Y`
using the current Baghdad year, then — when a time part is present — the
time with `%I:%M%p` falling back to `%H:%M`; any parse failure is a
`ValueError` caught by the surrounding handler, i.e. `none`. -/
def parseEventDatetime (currentYear : Nat) (dateStr : String) : Option EventDT :=
  let parts := splitChar ',' dateStr.data
  let datePart := trimWs (parts.headD [])
  let timePart := trimWs (parts.getD 1 [])
  match parseDateBD currentYear datePart with
  | none => none
  | some (m, d) =>
    if timePart = [] then some ⟨⟨currentYear, m, d⟩, 0, 0⟩
    else
      match parseEventTime timePart with
      | some (h, mi) => some ⟨⟨currentYear, m, d⟩, h, mi⟩
      | none => none

/-- One `economicCalendarRow` with its extracted cell texts
(`app/scheduler.py` lines 79–108). -/
structure CalRow where
  dateStr : String
  currency : String
  eventName : String
  impact : String
  previous : String
  forecast : String
  actual : String
deriving DecidableEq

/-- `self.target_currencies = ['USD', 'EUR']` (`app/scheduler.py` line 38). -/
def targetCurrencies : List String := ["USD", "EUR"]

/-- `self.acceptable_impacts = ['Medium', 'High']` (`app/scheduler.py` line 39). -/
def acceptableImpacts : List String := ["Medium", "High"]

/-- Python's `x or default` on a stripped cell text: empty string → default. -/
def orDefault (s dflt : String) : String := if s = "" then dflt else s

structure Event where
  dt : EventDT
  currency : String
  eventName : String
  impact : String
  previous : String
  forecast : String
  actual : String
deriving DecidableEq

/-- The dict appended at `app/scheduler.py` lines 102–108. -/
def mkEvent (r : CalRow) (dt : EventDT) : Event :=
  ⟨dt, r.currency, r.eventName, r.impact, orDefault r.previous "N/A",
   orDefault r.forecast "N/A", orDefault r.actual "Not released"⟩

/-- Per-row processing of `_scrape_calendar` (`app/scheduler.py` lines
79–108): keep the row only when its currency is targeted, its impact
acceptable, its date string parses, and the parsed date is today or
tomorrow in Baghdad. -/
def rowToEvent (currentYear : Nat) (today : Date) (r : CalRow) : Option Event :=
  if r.currency ∈ targetCurrencies ∧ r.impact ∈ acceptableImpacts then
    match parseEventDatetime currentYear r.dateStr with
    | none => none
    | some dt =>
      if dt.date = today ∨ dt.date = nextDay today then some (mkEvent r dt)
      else none
  else none

/-- Order-embedding of an event instant into ℕ (components are bounded by
construction: month ≤ 12, day ≤ 31, hour ≤ 23, minute ≤ 59), giving the
chronological order `economic_events.sort(key=lambda x: x['datetime_obj'])`
sorts by. -/
def dtKey (e : EventDT) : Nat :=
  (((e.date.year * 13 + e.date.month) * 32 + e.date.day) * 24 + e.hour) * 60
    + e.minute

def eventLE (a b : Event) : Prop := dtKey a.dt ≤ dtKey b.dt

instance : DecidableRel eventLE := fun _ _ => Nat.decLe _ _

instance : IsTotal Event eventLE := ⟨fun _ _ => Nat.le_total _ _⟩

instance : IsTrans Event eventLE := ⟨fun _ _ _ => Nat.le_trans⟩

/-- `_scrape_calendar` (`app/scheduler.py` lines 65–113) over already
extracted rows: filter, then sort ascending by the event instant (Python's
`list.sort` is a stable ascending sort; on a total preorder any stable
ascending sort yields this same list). -/
def scrapeCalendar (currentYear : Nat) (today : Date) (rows : List CalRow) :
    List Event :=
  List.insertionSort eventLE (rows.filterMap (rowToEvent currentYear today))

/-- `start_add_alert_handler` (`app/handlers/user.py` lines 352–365): a
free-tier user with 3 or more active alerts is refused (upgrade prompt);
anyone else proceeds into the creation flow.  The handler itself never
writes to the alert table; returned alongside the decision. -/
def startAddAlertHandler (tier : String) (alerts : List PriceAlert) :
    Bool × List PriceAlert :=
  if tier = "free" then
    if 3 ≤ (alerts.filter (fun a => a.is_active)).length then (false, alerts)
    else (true, alerts)
  else (true, alerts)

/-- Concrete persisted analysis task used in witnesses/counterexamples. -/
def task0 : ScheduledTask :=
  ⟨"task_XAUUSD_2_0", "XAUUSD", 2, 0, "Asia/Baghdad"⟩

/-- A job sharing `task0`'s id but with different cron parameters. -/
def jobAlt : SchedJob :=
  ⟨"task_XAUUSD_2_0", "cron", some 3, some 30, none⟩

/-- A concrete Baghdad "today" used in witnesses. -/
def d0 : Date := ⟨2026, 1, 5⟩

/-- A calendar row that passes every filter. -/
def goodRow : CalRow :=
  ⟨"Jan 5, 2:30PM", "USD", "CPI", "High", "1.0", "", "2.0"⟩

/-- A calendar row whose date string parses under neither time format. -/
def badRow : CalRow :=
  ⟨"nonsense", "USD", "PMI", "High", "", "", ""⟩

/-- Concrete one-time ABOVE alert used in witnesses/counterexamples. -/
def alertA : PriceAlert :=
  ⟨1, 7, "XAUUSD", 100, AlertType.ABOVE, true, true⟩

/-- Concrete one-time BELOW alert used in witnesses/counterexamples. -/
def alertB : PriceAlert :=
  ⟨2, 9, "BTCUSD", 50, AlertType.BELOW, true, true⟩

/-- Concrete recurring alert used in witnesses. -/
def alertC : PriceAlert :=
  ⟨3, 11, "EURUSD", 2, AlertType.ABOVE, true, false⟩

lemma runAlerts_attempts (prices : String → Option ℚ) (sendOk : PriceAlert → Bool)
    (alerts : List PriceAlert) :
    (runAlerts prices sendOk alerts).attempts
      = (alerts.filter (firedB prices)).map (fun a => (a.id, sendOk a)) := by
  induction alerts with
  | nil => rfl
  | cons a rest ih =>
    cases h : prices a.asset with
    | none => simp [runAlerts, h, List.filter_cons, firedB, ih]
    | some p =>
      by_cases htr : evalTriggered a p = true
      · by_cases hs : sendOk a = true
        · simp [runAlerts, h, List.filter_cons, firedB, htr, hs, ih]
        · simp [runAlerts, h, List.filter_cons, firedB, htr, hs, ih]
      · simp [runAlerts, h, List.filter_cons, firedB, htr, ih]

lemma runAlerts_queued (prices : String → Option ℚ) (sendOk : PriceAlert → Bool)
    (alerts : List PriceAlert) :
    (runAlerts prices sendOk alerts).queued
      = (alerts.filter (queuedB prices sendOk)).map (fun a => a.id) := by
  induction alerts with
  | nil => rfl
  | cons a rest ih =>
    cases h : prices a.asset with
    | none => simp [runAlerts, h, List.filter_cons, queuedB, firedB, ih]
    | some p =>
      by_cases htr : evalTriggered a p = true
      · by_cases hs : sendOk a = true
        · by_cases h1 : a.is_one_time = true
          · simp [runAlerts, h, List.filter_cons, queuedB, firedB, htr, hs, h1, ih]
          · simp [runAlerts, h, List.filter_cons, queuedB, firedB, htr, hs, h1, ih]
        · simp [runAlerts, h, List.filter_cons, queuedB, firedB, htr, hs, ih]
      · simp [runAlerts, h, List.filter_cons, queuedB, firedB, htr, ih]

lemma evalTriggered_iff (a : PriceAlert) (p : ℚ) :
    evalTriggered a p = true
      ↔ ((a.alert_type = AlertType.ABOVE ∧ a.target_price ≤ p)
         ∨ (a.alert_type = AlertType.BELOW ∧ p ≤ a.target_price)) := by
  cases h : a.alert_type <;> simp [evalTriggered, h]

lemma evalTriggered_boundary (a : PriceAlert) :
    evalTriggered a a.target_price = true := by
  cases h : a.alert_type <;> simp [evalTriggered, h]

lemma runAlerts_attempt_mem_iff (prices : String → Option ℚ)
    (sendOk : PriceAlert → Bool) (alerts : List PriceAlert) (a : PriceAlert)
    (p : ℚ) (ha : a ∈ alerts) (hp : prices a.asset = some p)
    (hnd : (alerts.map (fun x => x.id)).Nodup) :
    (a.id, sendOk a) ∈ (runAlerts prices sendOk alerts).attempts
      ↔ evalTriggered a p = true := by
  have hfired : firedB prices a = evalTriggered a p := by simp [firedB, hp]
  rw [runAlerts_attempts]
  constructor
  · intro hmem
    rcases List.mem_map.mp hmem with ⟨b, hb, hbeq⟩
    have hbid : b.id = a.id := congrArg Prod.fst hbeq
    have hb' := List.mem_filter.mp hb
    have hba : b = a := List.inj_on_of_nodup_map hnd hb'.1 ha hbid
    rw [hba, hfired] at hb'
    exact hb'.2
  · intro htr
    exact List.mem_map.mpr
      ⟨a, List.mem_filter.mpr ⟨ha, by rw [hfired]; exact htr⟩, rfl⟩

lemma mem_distinctAlertAssets (alerts : List PriceAlert) (a : PriceAlert)
    (ha : a ∈ alerts) (hact : a.is_active = true) :
    a.asset ∈ distinctAlertAssets alerts := by
  unfold distinctAlertAssets
  rw [List.mem_dedup, List.mem_map]
  exact ⟨a, List.mem_filter.mpr ⟨ha, hact⟩, rfl⟩

lemma pricesOf_eq (alerts : List PriceAlert) (fetch : String → Option ℚ)
    (a : PriceAlert) (ha : a ∈ alerts) (hact : a.is_active = true) :
    pricesOf alerts fetch a.asset = fetch a.asset := by
  unfold pricesOf
  rw [if_pos (mem_distinctAlertAssets alerts a ha hact)]

/-- When some active alert's asset has a fetched price, the tick takes the
main branch: evaluate the active alerts, then apply the batched
deactivation. -/
lemma checkPriceAlertsJob_eq (alerts : List PriceAlert)
    (fetch : String → Option ℚ) (sendOk : PriceAlert → Bool) (a : PriceAlert)
    (p : ℚ) (ha : a ∈ alerts) (hact : a.is_active = true)
    (hp : fetch a.asset = some p) :
    checkPriceAlertsJob alerts fetch sendOk
      = ((runAlerts (pricesOf alerts fetch) sendOk
            (alerts.filter (fun x => x.is_active))),
         applyDeactivation alerts
           (runAlerts (pricesOf alerts fetch) sendOk
             (alerts.filter (fun x => x.is_active))).queued) := by
  have hmem := mem_distinctAlertAssets alerts a ha hact
  have h1 : (distinctAlertAssets alerts).isEmpty = false := by
    rw [Bool.eq_false_iff]
    intro h
    exact List.ne_nil_of_mem hmem (List.isEmpty_iff.mp h)
  have h2 : (distinctAlertAssets alerts).all (fun x => (fetch x).isNone) = false := by
    rw [Bool.eq_false_iff]
    intro h
    have := List.all_eq_true.mp h _ hmem
    rw [hp] at this
    simp at this
  simp only [checkPriceAlertsJob, h1, h2, Bool.false_eq_true, if_false]

lemma filter_active_map_id_nodup (alerts : List PriceAlert)
    (hnd : (alerts.map (fun x => x.id)).Nodup) :
    ((alerts.filter (fun x => x.is_active)).map (fun x => x.id)).Nodup :=
  hnd.sublist (List.Sublist.map _ (List.filter_sublist alerts))

/-- C1: in `check_price_alerts_job`, an active alert whose asset has a
successfully fetched price `p` triggers (i.e., a notification send is
attempted for it) if and only if its type is ABOVE and `p ≥ target_price`,
or its type is BELOW and `p ≤ target_price`; both comparisons are
inclusive, so `p = target_price` always triggers. -/
theorem c1_trigger_iff_inclusive (alerts : List PriceAlert)
    (fetch : String → Option ℚ) (sendOk : PriceAlert → Bool) (a : PriceAlert)
    (p : ℚ) (ha : a ∈ alerts) (hact : a.is_active = true)
    (hp : fetch a.asset = some p)
    (hnd : (alerts.map (fun x => x.id)).Nodup) :
    ((a.id, sendOk a) ∈ (checkPriceAlertsJob alerts fetch sendOk).1.attempts
      ↔ ((a.alert_type = AlertType.ABOVE ∧ a.target_price ≤ p)
         ∨ (a.alert_type = AlertType.BELOW ∧ p ≤ a.target_price)))
    ∧ (p = a.target_price →
        (a.id, sendOk a) ∈ (checkPriceAlertsJob alerts fetch sendOk).1.attempts) := by
  rw [checkPriceAlertsJob_eq alerts fetch sendOk a p ha hact hp]
  have ha' : a ∈ alerts.filter (fun x => x.is_active) :=
    List.mem_filter.mpr ⟨ha, hact⟩
  have hp' : pricesOf alerts fetch a.asset = some p := by
    rw [pricesOf_eq alerts fetch a ha hact]; exact hp
  have hmain := runAlerts_attempt_mem_iff (pricesOf alerts fetch) sendOk
    (alerts.filter (fun x => x.is_active)) a p ha' hp'
    (filter_active_map_id_nodup alerts hnd)
  constructor
  · exact hmain.trans (evalTriggered_iff a p)
  · intro hpe
    apply hmain.mpr
    rw [hpe]
    exact evalTriggered_boundary a

/-- Witness for C1 at a boundary input: price exactly equal to the target
of an ABOVE alert triggers it. -/
theorem c1_trigger_iff_inclusive_witness :
    (1, true) ∈ (checkPriceAlertsJob [alertA] (fun _ => some 100)
      (fun _ => true)).1.attempts :=
  (c1_trigger_iff_inclusive [alertA] (fun _ => some 100) (fun _ => true)
    alertA 100 (by simp) rfl rfl (by simp)).2 rfl

/-- C2 counterexample: a one-time ABOVE alert (target 100) triggers at
price 100, its notification send fails, and — contrary to the claim — it
is *not* queued for deactivation (`triggered_one_time_ids` stays empty)
and the end-of-tick batch leaves it active and unchanged: the
`triggered_one_time_ids.append` sits after the awaited send inside the
`try`, so the raised send error skips it. -/
theorem c2_counterexample :
    (checkPriceAlertsJob [alertA] (fun _ => some 100) (fun _ => false)).1.attempts
        = [(1, false)]
    ∧ (checkPriceAlertsJob [alertA] (fun _ => some 100) (fun _ => false)).1.queued
        = []
    ∧ (checkPriceAlertsJob [alertA] (fun _ => some 100) (fun _ => false)).2
        = [alertA]
    ∧ alertA.is_one_time = true ∧ alertA.is_active = true := by
  refine ⟨?_, ?_, ?_, rfl, rfl⟩ <;> decide

/-- C2 (amended): a notification-send failure for one triggered alert does
not prevent evaluating and firing the alerts before or after it in the
same tick, and the failed alert's own row is left untouched by the
end-of-tick batch — but, contrary to the original claim, a triggered
one-time alert whose send failed is *not* queued for deactivation: it
stays active (and will be re-evaluated next tick). -/
theorem c2_amended_send_failure_isolated (prices : String → Option ℚ)
    (sendOk : PriceAlert → Bool) (pre post : List PriceAlert)
    (a : PriceAlert) (p : ℚ) (hp : prices a.asset = some p)
    (ht : evalTriggered a p = true) (hf : sendOk a = false)
    (hnd : (((pre ++ a :: post)).map (fun x => x.id)).Nodup) :
    (runAlerts prices sendOk (pre ++ a :: post)).attempts
      = (runAlerts prices sendOk pre).attempts
        ++ (a.id, false) :: (runAlerts prices sendOk post).attempts
    ∧ (runAlerts prices sendOk (pre ++ a :: post)).queued
      = (runAlerts prices sendOk pre).queued
        ++ (runAlerts prices sendOk post).queued
    ∧ a.id ∉ (runAlerts prices sendOk (pre ++ a :: post)).queued
    ∧ applyDeactivation (pre ++ a :: post)
        (runAlerts prices sendOk (pre ++ a :: post)).queued
      = applyDeactivation pre (runAlerts prices sendOk (pre ++ a :: post)).queued
        ++ a :: applyDeactivation post
            (runAlerts prices sendOk (pre ++ a :: post)).queued := by
  have hfa : firedB prices a = true := by simp [firedB, hp, ht]
  have hqa : queuedB prices sendOk a = false := by simp [queuedB, hf]
  have hatt : (runAlerts prices sendOk (pre ++ a :: post)).attempts
      = (runAlerts prices sendOk pre).attempts
        ++ (a.id, false) :: (runAlerts prices sendOk post).attempts := by
    simp [runAlerts_attempts, List.filter_append, List.filter_cons, hfa, hf]
  have hq : (runAlerts prices sendOk (pre ++ a :: post)).queued
      = (runAlerts prices sendOk pre).queued
        ++ (runAlerts prices sendOk post).queued := by
    simp [runAlerts_queued, List.filter_append, List.filter_cons, hqa]
  have hnin : a.id ∉ (runAlerts prices sendOk (pre ++ a :: post)).queued := by
    rw [runAlerts_queued]
    intro hmem
    rcases List.mem_map.mp hmem with ⟨b, hb, hbid⟩
    have hb' := List.mem_filter.mp hb
    have hba : b = a :=
      List.inj_on_of_nodup_map hnd hb'.1 (by simp) hbid
    rw [hba, hqa] at hb'
    exact Bool.false_ne_true hb'.2
  refine ⟨hatt, hq, hnin, ?_⟩
  unfold applyDeactivation
  rw [List.map_append, List.map_cons,
    if_neg (by exact hnin : ¬ a.id ∈ (runAlerts prices sendOk (pre ++ a :: post)).queued)]

/-- Witness for C2 (amended): one failing-send one-time alert between no
predecessor and one successor; the successor's evaluation is untouched and
the failing alert stays in the table unchanged. -/
theorem c2_amended_send_failure_isolated_witness :
    (runAlerts (fun _ => some 100) (fun x => decide (x.id = 3))
        ([] ++ alertA :: [alertC])).attempts
      = (runAlerts (fun _ => some 100) (fun x => decide (x.id = 3)) []).attempts
        ++ (alertA.id, false)
          :: (runAlerts (fun _ => some 100) (fun x => decide (x.id = 3))
                [alertC]).attempts
    ∧ (runAlerts (fun _ => some 100) (fun x => decide (x.id = 3))
        ([] ++ alertA :: [alertC])).queued
      = (runAlerts (fun _ => some 100) (fun x => decide (x.id = 3)) []).queued
        ++ (runAlerts (fun _ => some 100) (fun x => decide (x.id = 3))
              [alertC]).queued
    ∧ alertA.id ∉ (runAlerts (fun _ => some 100) (fun x => decide (x.id = 3))
        ([] ++ alertA :: [alertC])).queued
    ∧ applyDeactivation ([] ++ alertA :: [alertC])
        (runAlerts (fun _ => some 100) (fun x => decide (x.id = 3))
          ([] ++ alertA :: [alertC])).queued
      = applyDeactivation []
          (runAlerts (fun _ => some 100) (fun x => decide (x.id = 3))
            ([] ++ alertA :: [alertC])).queued
        ++ alertA :: applyDeactivation [alertC]
            (runAlerts (fun _ => some 100) (fun x => decide (x.id = 3))
              ([] ++ alertA :: [alertC])).queued :=
  c2_amended_send_failure_isolated (fun _ => some 100)
    (fun x => decide (x.id = 3)) [] [alertC] alertA 100 rfl (by decide)
    (by decide) (by decide)

lemma checkPriceAlertsJob_attempts_sub (alerts : List PriceAlert)
    (fetch : String → Option ℚ) (sendOk : PriceAlert → Bool) :
    (checkPriceAlertsJob alerts fetch sendOk).1.attempts = []
    ∨ (checkPriceAlertsJob alerts fetch sendOk).1.attempts
        = (runAlerts (pricesOf alerts fetch) sendOk
            (alerts.filter (fun x => x.is_active))).attempts := by
  unfold checkPriceAlertsJob
  by_cases h1 : (distinctAlertAssets alerts).isEmpty
  · left; simp [h1]
  · by_cases h2 : (distinctAlertAssets alerts).all fun x => (fetch x).isNone
    · left; simp [h1, h2]
    · right; simp [h1, h2]

lemma checkPriceAlertsJob_snd_sub (alerts : List PriceAlert)
    (fetch : String → Option ℚ) (sendOk : PriceAlert → Bool) :
    (checkPriceAlertsJob alerts fetch sendOk).2 = alerts
    ∨ (checkPriceAlertsJob alerts fetch sendOk).2
        = applyDeactivation alerts
            (runAlerts (pricesOf alerts fetch) sendOk
              (alerts.filter (fun x => x.is_active))).queued := by
  unfold checkPriceAlertsJob
  by_cases h1 : (distinctAlertAssets alerts).isEmpty
  · left; simp [h1]
  · by_cases h2 : (distinctAlertAssets alerts).all fun x => (fetch x).isNone
    · left; simp [h1, h2]
    · right; simp [h1, h2]

lemma applyDeactivation_inactive_at (s : List PriceAlert) (ids : List Nat)
    (i : Nat) (hin : ∀ b ∈ s, b.id = i → b.is_active = false) :
    ∀ b ∈ applyDeactivation s ids, b.id = i → b.is_active = false := by
  intro b hb hbid
  rcases List.mem_map.mp hb with ⟨x, hx, hxe⟩
  by_cases hxq : x.id ∈ ids
  · rw [← hxe, if_pos hxq]
  · rw [← hxe, if_neg hxq] at hbid ⊢
    exact hin x hx hbid

/-- C3 counterexample: a one-time BELOW alert (target 50) triggers at
price 40 but its notification send fails; the end-of-tick batch then does
*not* set it inactive — the table is unchanged, so the alert is not
"set inactive once it has triggered" and will trigger again next tick. -/
theorem c3_counterexample :
    (checkPriceAlertsJob [alertB] (fun _ => some 40) (fun _ => false)).1.attempts
        = [(2, false)]
    ∧ (checkPriceAlertsJob [alertB] (fun _ => some 40) (fun _ => false)).2
        = [alertB]
    ∧ alertB.is_one_time = true ∧ alertB.is_active = true := by
  refine ⟨?_, ?_, rfl, rfl⟩ <;> decide

/-- C3 (amended): for a one-time alert, (i) when it triggers *and its
trigger notification is sent successfully* it is queued and set inactive
by the single batched update run after the full evaluation sweep of the
tick; (ii) it triggers at most once within a tick; (iii) once inactive, no
table operation (adding a fresh alert, deactivating, deleting, or a
scheduler tick) ever sets it active again; and (iv) while inactive it is
never evaluated, so no further trigger notification is ever attempted for
it.  (The original claim's "once it has triggered" is weakened to "once it
has triggered and its notification was delivered": a triggered one-time
alert whose send failed stays active, see the counterexample.) -/
theorem c3_amended_one_time_lifecycle (alerts : List PriceAlert)
    (fetch : String → Option ℚ) (sendOk : PriceAlert → Bool) (a : PriceAlert)
    (ha : a ∈ alerts) (h1 : a.is_one_time = true)
    (hnd : (alerts.map (fun x => x.id)).Nodup) :
    ((∃ p, fetch a.asset = some p ∧ evalTriggered a p = true) →
      a.is_active = true → sendOk a = true →
        a.id ∈ (checkPriceAlertsJob alerts fetch sendOk).1.queued
        ∧ ∀ b ∈ (checkPriceAlertsJob alerts fetch sendOk).2,
            b.id = a.id → b.is_active = false)
    ∧ (checkPriceAlertsJob alerts fetch sendOk).1.attempts.countP
        (fun q => q.1 == a.id) ≤ 1
    ∧ (∀ (s : List PriceAlert) (op : DBOp),
        (∀ b ∈ s, b.id = a.id → b.is_active = false) →
        (∀ c, op = DBOp.addAlert c → c.id ≠ a.id) →
        ∀ b ∈ applyOp s op, b.id = a.id → b.is_active = false)
    ∧ (∀ (s : List PriceAlert) (f2 : String → Option ℚ)
        (s2 : PriceAlert → Bool) (bb : Bool),
        (∀ b ∈ s, b.id = a.id → b.is_active = false) →
        (a.id, bb) ∉ (checkPriceAlertsJob s f2 s2).1.attempts) := by
  refine ⟨?_, ?_, ?_, ?_⟩
  · rintro ⟨p, hp, htr⟩ hact hs
    rw [checkPriceAlertsJob_eq alerts fetch sendOk a p ha hact hp]
    have hp' : pricesOf alerts fetch a.asset = some p := by
      rw [pricesOf_eq alerts fetch a ha hact]; exact hp
    have hq : queuedB (pricesOf alerts fetch) sendOk a = true := by
      simp [queuedB, firedB, hp', htr, hs, h1]
    have hmemq : a.id ∈ (runAlerts (pricesOf alerts fetch) sendOk
        (alerts.filter (fun x => x.is_active))).queued := by
      rw [runAlerts_queued]
      exact List.mem_map.mpr
        ⟨a, List.mem_filter.mpr ⟨List.mem_filter.mpr ⟨ha, hact⟩, hq⟩, rfl⟩
    refine ⟨hmemq, ?_⟩
    intro b hb hbid
    rcases List.mem_map.mp hb with ⟨x, hx, hxe⟩
    by_cases hxq : x.id ∈ (runAlerts (pricesOf alerts fetch) sendOk
        (alerts.filter (fun x => x.is_active))).queued
    · rw [← hxe, if_pos hxq]
    · rw [← hxe, if_neg hxq] at hbid ⊢
      have hxa : x = a := List.inj_on_of_nodup_map hnd hx ha hbid
      rw [hxa] at hxq
      exact absurd hmemq hxq
  · rcases checkPriceAlertsJob_attempts_sub alerts fetch sendOk with h | h
    · simp [h]
    · rw [h, runAlerts_attempts, List.countP_map]
      have hle : ((alerts.filter (fun x => x.is_active)).filter
            (firedB (pricesOf alerts fetch))).countP
            (fun x => x.id == a.id)
          ≤ alerts.countP (fun x => x.id == a.id) :=
        le_trans
          (List.Sublist.countP_le _ (List.filter_sublist _))
          (List.Sublist.countP_le _ (List.filter_sublist _))
      refine le_trans (le_trans (le_of_eq ?_) hle) ?_
      · rfl
      · have : alerts.countP (fun x => x.id == a.id)
            = (alerts.map (fun x => x.id)).count a.id := by
          rw [List.count_eq_countP, List.countP_map]
          rfl
        rw [this]
        exact List.nodup_iff_count_le_one.mp hnd a.id
  · intro s op hin hfresh b hb hbid
    cases op with
    | addAlert c =>
      rcases List.mem_append.mp hb with hb' | hb'
      · exact hin b hb' hbid
      · have hbc : b = { c with is_active := true } := List.mem_singleton.mp hb'
        rw [hbc] at hbid
        exact absurd hbid (hfresh c rfl)
    | deactivateAlert i =>
      rcases List.mem_map.mp hb with ⟨x, hx, hxe⟩
      by_cases hxi : x.id = i
      · rw [← hxe, if_pos hxi]
      · rw [← hxe, if_neg hxi] at hbid ⊢
        exact hin x hx hbid
    | deleteAlert i =>
      exact hin b (List.mem_filter.mp hb).1 hbid
    | tick f2 s2 =>
      rcases checkPriceAlertsJob_snd_sub s f2 s2 with h | h
      · rw [show applyOp s (DBOp.tick f2 s2)
            = (checkPriceAlertsJob s f2 s2).2 from rfl, h] at hb
        exact hin b hb hbid
      · rw [show applyOp s (DBOp.tick f2 s2)
            = (checkPriceAlertsJob s f2 s2).2 from rfl, h] at hb
        exact applyDeactivation_inactive_at s _ a.id hin b hb hbid
  · intro s f2 s2 bb hin hmem
    rcases checkPriceAlertsJob_attempts_sub s f2 s2 with h | h
    · rw [h] at hmem
      exact List.not_mem_nil _ hmem
    · rw [h, runAlerts_attempts] at hmem
      rcases List.mem_map.mp hmem with ⟨b, hb, hbeq⟩
      have hbid : b.id = a.id := congrArg Prod.fst hbeq
      have hb' := (List.mem_filter.mp (List.mem_filter.mp hb).1)
      have : b.is_active = false := hin b hb'.1 hbid
      rw [hb'.2] at this
      exact Bool.noConfusion this

/-- Witness for C3 (amended): a one-time alert that triggers with a
successful send is queued and ends the tick inactive. -/
theorem c3_amended_one_time_lifecycle_witness :
    ((∃ p, (fun _ => some (40 : ℚ)) alertB.asset = some p
        ∧ evalTriggered alertB p = true) →
      alertB.is_active = true → true = true →
        alertB.id ∈ (checkPriceAlertsJob [alertB] (fun _ => some 40)
          (fun _ => true)).1.queued
        ∧ ∀ b ∈ (checkPriceAlertsJob [alertB] (fun _ => some 40)
            (fun _ => true)).2, b.id = alertB.id → b.is_active = false)
    ∧ (checkPriceAlertsJob [alertB] (fun _ => some 40)
        (fun _ => true)).1.attempts.countP (fun q => q.1 == alertB.id) ≤ 1
    ∧ (∀ (s : List PriceAlert) (op : DBOp),
        (∀ b ∈ s, b.id = alertB.id → b.is_active = false) →
        (∀ c, op = DBOp.addAlert c → c.id ≠ alertB.id) →
        ∀ b ∈ applyOp s op, b.id = alertB.id → b.is_active = false)
    ∧ (∀ (s : List PriceAlert) (f2 : String → Option ℚ)
        (s2 : PriceAlert → Bool) (bb : Bool),
        (∀ b ∈ s, b.id = alertB.id → b.is_active = false) →
        (alertB.id, bb) ∉ (checkPriceAlertsJob s f2 s2).1.attempts) :=
  c3_amended_one_time_lifecycle [alertB] (fun _ => some 40) (fun _ => true)
    alertB (by simp) rfl (by simp)

lemma addJob_mem_of_ne (jobs : List SchedJob) (j x : SchedJob)
    (hx : x ∈ jobs) (hne : x.id ≠ j.id) : x ∈ addJob jobs j :=
  List.mem_append_left _ (List.mem_filter.mpr ⟨hx, decide_eq_true hne⟩)

lemma mem_foldl_addJob (ts : List ScheduledTask) (js : List SchedJob)
    (x : SchedJob) (hx : x ∈ js) (h : ∀ t ∈ ts, t.job_id ≠ x.id) :
    x ∈ ts.foldl (fun acc t => addJob acc (analysisJob t)) js := by
  induction ts generalizing js with
  | nil => exact hx
  | cons t ts ih =>
    refine ih (addJob js (analysisJob t)) ?_
      (fun u hu => h u (List.mem_cons_of_mem t hu))
    exact addJob_mem_of_ne js (analysisJob t) x hx
      (fun he => h t (List.mem_cons_self t ts) he.symm)

lemma analysisJob_mem_foldl (ts : List ScheduledTask) (js : List SchedJob)
    (t : ScheduledTask) (ht : t ∈ ts)
    (hnd : (ts.map (fun x => x.job_id)).Nodup) :
    analysisJob t ∈ ts.foldl (fun acc u => addJob acc (analysisJob u)) js := by
  induction ts generalizing js with
  | nil => cases ht
  | cons u us ih =>
    have hnd' : (u.job_id ∉ us.map (fun x => x.job_id))
        ∧ (us.map (fun x => x.job_id)).Nodup := by
      rw [List.map_cons, List.nodup_cons] at hnd
      exact hnd
    rcases List.mem_cons.mp ht with rfl | ht'
    · refine mem_foldl_addJob us _ _
        (List.mem_append_right _ (List.mem_singleton.mpr rfl)) ?_
      intro v hv he
      have he' : v.job_id = t.job_id := he
      exact hnd'.1 (List.mem_map.mpr ⟨v, hv, he'⟩)
    · exact ih (addJob js (analysisJob u)) ht' hnd'.2

/-- C4 counterexample: for a persisted task whose stored timezone is
`'Asia/Baghdad'`, `setup_scheduler` registers its cron job with *no*
timezone argument (`tz = none`, i.e. the scheduler's default/host
timezone) rather than with the task's stored timezone — the
`ScheduledTask.timezone` column is never read by `setup_scheduler`. -/
theorem c4_counterexample :
    setupScheduler [task0] []
        = [analysisJob task0, priceAlertCheckerJob, dailyCalendarJob]
    ∧ (analysisJob task0).id = task0.job_id
    ∧ task0.timezone = "Asia/Baghdad"
    ∧ (analysisJob task0).tz = none
    ∧ (analysisJob task0).tz ≠ some task0.timezone := by
  refine ⟨?_, rfl, rfl, rfl, by decide⟩
  decide

/-- C4 (amended): `setup_scheduler` registers each persisted task's cron
trigger on the task's stored hour and minute but with *no* timezone
argument, so analysis jobs fire in the scheduler's default timezone, not
the task's stored one; only the fixed daily-calendar job is registered
with the Asia/Baghdad timezone (and thus fires at the Baghdad-local 02:00
instant). -/
theorem c4_amended_no_task_timezone (tasks : List ScheduledTask)
    (jobs0 : List SchedJob) (t : ScheduledTask) (ht : t ∈ tasks)
    (hnd : (tasks.map (fun x => x.job_id)).Nodup)
    (hid1 : t.job_id ≠ "price_alert_checker")
    (hid2 : t.job_id ≠ "daily_calendar_sender") :
    (∃ j ∈ setupScheduler tasks jobs0,
        j.id = t.job_id ∧ j.trigger = "cron" ∧ j.hour = some t.hour
        ∧ j.minute = some t.minute ∧ j.tz = none)
    ∧ dailyCalendarJob ∈ setupScheduler tasks jobs0
    ∧ dailyCalendarJob.tz = some "Asia/Baghdad" := by
  unfold setupScheduler
  refine ⟨⟨analysisJob t, ?_, rfl, rfl, rfl, rfl, rfl⟩, ?_, rfl⟩
  · exact addJob_mem_of_ne _ _ _
      (addJob_mem_of_ne _ _ _
        (analysisJob_mem_foldl tasks jobs0 t ht hnd) hid1) hid2
  · exact List.mem_append_right _ (List.mem_singleton.mpr rfl)

/-- Witness for C4 (amended) on a one-task table. -/
theorem c4_amended_no_task_timezone_witness :
    (∃ j ∈ setupScheduler [task0] [],
        j.id = task0.job_id ∧ j.trigger = "cron" ∧ j.hour = some task0.hour
        ∧ j.minute = some task0.minute ∧ j.tz = none)
    ∧ dailyCalendarJob ∈ setupScheduler [task0] []
    ∧ dailyCalendarJob.tz = some "Asia/Baghdad" :=
  c4_amended_no_task_timezone [task0] [] task0 (by simp) (by simp)
    (by decide) (by decide)

/-- C5: registering a job twice with the same id (both calls use
`replace_existing=True`) leaves exactly one live job with that id, and
that job carries the parameters of the latest call; the job id the
add-task handler registers and persists is the deterministic function
`taskJobId` of (asset, hour, minute) alone. -/
theorem c5_replace_existing_same_id (jobs : List SchedJob) (j1 j2 : SchedJob)
    (_hid : j1.id = j2.id) :
    (addJob (addJob jobs j1) j2).countP (fun x => x.id == j2.id) = 1
    ∧ (∀ x ∈ addJob (addJob jobs j1) j2, x.id = j2.id → x = j2)
    ∧ j2 ∈ addJob (addJob jobs j1) j2
    ∧ (∀ (asset : String) (h m : Nat),
        (handlerJob asset h m).id = taskJobId asset h m
        ∧ (handlerTask asset h m).job_id = taskJobId asset h m) := by
  have h0 : ((addJob jobs j1).filter
      (fun x => x.id ≠ j2.id)).countP (fun x => x.id == j2.id) = 0 := by
    rw [List.countP_eq_zero]
    intro x hx
    have hne := (List.mem_filter.mp hx).2
    simp only [decide_eq_true_eq] at hne
    simp [hne]
  refine ⟨?_, ?_, ?_, fun asset h m => ⟨rfl, rfl⟩⟩
  · rw [show addJob (addJob jobs j1) j2
        = (addJob jobs j1).filter (fun x => x.id ≠ j2.id) ++ [j2] from rfl,
      List.countP_append, h0]
    simp
  · intro x hx hxid
    have hx2 : x ∈ (addJob jobs j1).filter (fun y => y.id ≠ j2.id) ++ [j2] := hx
    rcases List.mem_append.mp hx2 with hx' | hx'
    · have hne := (List.mem_filter.mp hx').2
      simp only [decide_eq_true_eq] at hne
      exact absurd hxid hne
    · exact List.mem_singleton.mp hx'
  · exact List.mem_append_right _ (List.mem_singleton.mpr rfl)

/-- Witness for C5: two concrete registrations under the same id with
different cron parameters. -/
theorem c5_replace_existing_same_id_witness :
    (addJob (addJob [] (analysisJob task0)) jobAlt).countP
        (fun x => x.id == jobAlt.id) = 1
    ∧ (∀ x ∈ addJob (addJob [] (analysisJob task0)) jobAlt,
        x.id = jobAlt.id → x = jobAlt)
    ∧ jobAlt ∈ addJob (addJob [] (analysisJob task0)) jobAlt
    ∧ (∀ (asset : String) (h m : Nat),
        (handlerJob asset h m).id = taskJobId asset h m
        ∧ (handlerTask asset h m).job_id = taskJobId asset h m) :=
  c5_replace_existing_same_id [] (analysisJob task0) jobAlt (by decide)

lemma checkPriceAlertsJob_cases (alerts : List PriceAlert)
    (fetch : String → Option ℚ) (sendOk : PriceAlert → Bool) :
    checkPriceAlertsJob alerts fetch sendOk = (⟨[], []⟩, alerts)
    ∨ checkPriceAlertsJob alerts fetch sendOk
        = ((runAlerts (pricesOf alerts fetch) sendOk
              (alerts.filter (fun x => x.is_active))),
           applyDeactivation alerts
             (runAlerts (pricesOf alerts fetch) sendOk
               (alerts.filter (fun x => x.is_active))).queued) := by
  unfold checkPriceAlertsJob
  by_cases h1 : (distinctAlertAssets alerts).isEmpty
  · left; simp [h1]
  · by_cases h2 : (distinctAlertAssets alerts).all fun x => (fetch x).isNone
    · left; simp [h1, h2]
    · right; simp [h1, h2]

/-- C6: in a tick of `check_price_alerts_job`, a price-fetch failure for
one asset does not block the others: every active alert whose asset has no
fetched price is skipped for this tick only — no send attempt, not queued,
its row left exactly as it was — while every active alert whose asset
price was fetched is still evaluated normally (it fires iff its trigger
condition holds at the fetched price). -/
theorem c6_fetch_failure_isolated (alerts : List PriceAlert)
    (fetch : String → Option ℚ) (sendOk : PriceAlert → Bool)
    (hnd : (alerts.map (fun x => x.id)).Nodup) :
    (∀ a ∈ alerts, a.is_active = true → fetch a.asset = none →
        (∀ bb, (a.id, bb) ∉ (checkPriceAlertsJob alerts fetch sendOk).1.attempts)
        ∧ a.id ∉ (checkPriceAlertsJob alerts fetch sendOk).1.queued
        ∧ ∀ c ∈ (checkPriceAlertsJob alerts fetch sendOk).2, c.id = a.id → c = a)
    ∧ (∀ b ∈ alerts, b.is_active = true → ∀ q, fetch b.asset = some q →
        ((b.id, sendOk b) ∈ (checkPriceAlertsJob alerts fetch sendOk).1.attempts
          ↔ evalTriggered b q = true)) := by
  constructor
  · intro a ha hact hpn
    have hpn' : pricesOf alerts fetch a.asset = none := by
      rw [pricesOf_eq alerts fetch a ha hact]; exact hpn
    have hfa : firedB (pricesOf alerts fetch) a = false := by
      simp [firedB, hpn']
    rcases checkPriceAlertsJob_cases alerts fetch sendOk with h | h
    · rw [h]
      exact ⟨fun bb => List.not_mem_nil _, List.not_mem_nil _,
        fun c hc hcid => List.inj_on_of_nodup_map hnd hc ha hcid⟩
    · rw [h]
      have hnin : a.id ∉ (runAlerts (pricesOf alerts fetch) sendOk
          (alerts.filter (fun x => x.is_active))).queued := by
        rw [runAlerts_queued]
        intro hmem
        rcases List.mem_map.mp hmem with ⟨b, hb, hbid⟩
        have hb' := List.mem_filter.mp hb
        have hba : b = a := List.inj_on_of_nodup_map hnd
          (List.mem_filter.mp hb'.1).1 ha hbid
        rw [hba] at hb'
        have hq0 : queuedB (pricesOf alerts fetch) sendOk a = false := by
          simp [queuedB, hfa]
        rw [hq0] at hb'
        exact Bool.noConfusion hb'.2
      refine ⟨?_, hnin, ?_⟩
      · intro bb hmem
        rw [runAlerts_attempts] at hmem
        rcases List.mem_map.mp hmem with ⟨b, hb, hbeq⟩
        have hbid : b.id = a.id := congrArg Prod.fst hbeq
        have hb' := List.mem_filter.mp hb
        have hba : b = a := List.inj_on_of_nodup_map hnd
          (List.mem_filter.mp hb'.1).1 ha hbid
        rw [hba, hfa] at hb'
        exact Bool.noConfusion hb'.2
      · intro c hc hcid
        rcases List.mem_map.mp hc with ⟨x, hx, hxe⟩
        by_cases hxq : x.id ∈ (runAlerts (pricesOf alerts fetch) sendOk
            (alerts.filter (fun y => y.is_active))).queued
        · exfalso
          have hcid' : x.id = a.id := by rw [← hxe] at hcid; simpa [hxq] using hcid
          have hxa : x = a := List.inj_on_of_nodup_map hnd hx ha hcid'
          rw [hxa] at hxq
          exact hnin hxq
        · rw [← hxe, if_neg hxq] at hcid ⊢
          exact List.inj_on_of_nodup_map hnd hx ha hcid
  · intro b hb hact q hq
    rw [checkPriceAlertsJob_eq alerts fetch sendOk b q hb hact hq]
    have hq' : pricesOf alerts fetch b.asset = some q := by
      rw [pricesOf_eq alerts fetch b hb hact]; exact hq
    exact runAlerts_attempt_mem_iff (pricesOf alerts fetch) sendOk
      (alerts.filter (fun x => x.is_active)) b q
      (List.mem_filter.mpr ⟨hb, hact⟩) hq'
      (filter_active_map_id_nodup alerts hnd)

/-- Witness for C6: XAUUSD's fetch fails while EURUSD's succeeds in the
same tick. -/
theorem c6_fetch_failure_isolated_witness :
    (∀ a ∈ [alertA, alertC], a.is_active = true →
        (fun x => if x = "EURUSD" then some (3 : ℚ) else none) a.asset = none →
        (∀ bb, (a.id, bb) ∉ (checkPriceAlertsJob [alertA, alertC]
            (fun x => if x = "EURUSD" then some (3 : ℚ) else none)
            (fun _ => true)).1.attempts)
        ∧ a.id ∉ (checkPriceAlertsJob [alertA, alertC]
            (fun x => if x = "EURUSD" then some (3 : ℚ) else none)
            (fun _ => true)).1.queued
        ∧ ∀ c ∈ (checkPriceAlertsJob [alertA, alertC]
            (fun x => if x = "EURUSD" then some (3 : ℚ) else none)
            (fun _ => true)).2, c.id = a.id → c = a)
    ∧ (∀ b ∈ [alertA, alertC], b.is_active = true → ∀ q,
        (fun x => if x = "EURUSD" then some (3 : ℚ) else none) b.asset = some q →
        ((b.id, true) ∈ (checkPriceAlertsJob [alertA, alertC]
            (fun x => if x = "EURUSD" then some (3 : ℚ) else none)
            (fun _ => true)).1.attempts
          ↔ evalTriggered b q = true)) :=
  c6_fetch_failure_isolated [alertA, alertC]
    (fun x => if x = "EURUSD" then some (3 : ℚ) else none)
    (fun _ => true) (by decide)

lemma countP_not_add {α : Type} (p : α → Bool) (l : List α) :
    l.countP p + l.countP (fun a => !(p a)) = l.length := by
  induction l with
  | nil => rfl
  | cons a l ih =>
    by_cases h : p a = true
    · rw [List.countP_cons_of_pos _ _ h,
        List.countP_cons_of_neg _ _ (by simp [h]), List.length_cons]
      omega
    · rw [List.countP_cons_of_neg _ _ h,
        List.countP_cons_of_pos _ _ (by simp [h]), List.length_cons]
      omega

lemma broadcastCounts_foldl (results : List Bool) (s f : Nat) :
    results.foldl
        (fun sf r => if r then (sf.1 + 1, sf.2) else (sf.1, sf.2 + 1)) (s, f)
      = (s + results.countP (fun r => r), f + results.countP (fun r => !r)) := by
  induction results generalizing s f with
  | nil => simp
  | cons r rs ih =>
    cases r
    · rw [List.foldl_cons, if_neg (by simp)]
      rw [ih]
      simp [List.countP_cons]
      omega
    · rw [List.foldl_cons, if_pos rfl]
      rw [ih]
      simp [List.countP_cons]
      omega

/-- C7: a fan-out of one message to `N` recipients of which `k` fail:
every recipient's send is attempted (the gathered outcome list has one
entry per recipient, so individual failures neither stop the sweep nor
escape it), and the reported counts are `delivered = N − k`,
`failed = k`. -/
theorem c7_fanout_counts (userIds : List Nat) (sendOk : Nat → Bool) :
    (broadcastResults userIds sendOk).length = userIds.length
    ∧ (broadcastCounts (broadcastResults userIds sendOk)).1
        = userIds.length - userIds.countP (fun u => !(sendOk u))
    ∧ (broadcastCounts (broadcastResults userIds sendOk)).2
        = userIds.countP (fun u => !(sendOk u))
    ∧ (broadcastCounts (broadcastResults userIds sendOk)).1
        + (broadcastCounts (broadcastResults userIds sendOk)).2
        = userIds.length := by
  have hc : broadcastCounts (broadcastResults userIds sendOk)
      = (userIds.countP (fun u => sendOk u), userIds.countP (fun u => !(sendOk u))) := by
    unfold broadcastCounts broadcastResults
    rw [broadcastCounts_foldl]
    simp [List.countP_map]
    constructor <;> rfl
  have hsum := countP_not_add (fun u => sendOk u) userIds
  refine ⟨List.length_map userIds sendOk, ?_, ?_, ?_⟩
  · rw [hc]
    omega
  · rw [hc]
  · rw [hc]
    simpa using hsum

/-- C8: calendar date parsing accepts a 12-hour time with AM/PM suffix and
a 24-hour time — trying the 12-hour format first and falling back to the
24-hour one when it fails — so `"Jan 5, 2:30PM"` and `"Jan 5, 14:30"`
normalize to the same instant (14:30 on Jan 5 of the current Baghdad
year); a row whose date string parses under neither format is excluded
from the scrape output without aborting the scrape. -/
theorem c8_two_time_formats (Y : Nat) (today : Date) (r : CalRow)
    (pre post : List CalRow)
    (hbad : parseEventDatetime Y r.dateStr = none) :
    parseEventDatetime Y "Jan 5, 2:30PM" = some ⟨⟨Y, 1, 5⟩, 14, 30⟩
    ∧ parseEventDatetime Y "Jan 5, 14:30" = some ⟨⟨Y, 1, 5⟩, 14, 30⟩
    ∧ (∀ tp v, parseTime12 (upperChars tp) = some v → parseEventTime tp = some v)
    ∧ (∀ tp, parseTime12 (upperChars tp) = none → parseEventTime tp = parseTime24 tp)
    ∧ rowToEvent Y today r = none
    ∧ scrapeCalendar Y today (pre ++ r :: post)
        = scrapeCalendar Y today (pre ++ post) := by
  have hrow : rowToEvent Y today r = none := by
    unfold rowToEvent
    by_cases hcond : r.currency ∈ targetCurrencies ∧ r.impact ∈ acceptableImpacts
    · rw [if_pos hcond, hbad]
    · rw [if_neg hcond]
  refine ⟨rfl, rfl, ?_, ?_, hrow, ?_⟩
  · intro tp v h
    unfold parseEventTime
    rw [h]
  · intro tp h
    unfold parseEventTime
    rw [h]
  · unfold scrapeCalendar
    rw [List.filterMap_append, List.filterMap_cons, hrow,
      List.filterMap_append]

/-- Witness for C8: a concrete unparseable row is dropped while the rest
of the scrape survives. -/
theorem c8_two_time_formats_witness :
    parseEventDatetime 2026 "Jan 5, 2:30PM" = some ⟨⟨2026, 1, 5⟩, 14, 30⟩
    ∧ parseEventDatetime 2026 "Jan 5, 14:30" = some ⟨⟨2026, 1, 5⟩, 14, 30⟩
    ∧ (∀ tp v, parseTime12 (upperChars tp) = some v → parseEventTime tp = some v)
    ∧ (∀ tp, parseTime12 (upperChars tp) = none → parseEventTime tp = parseTime24 tp)
    ∧ rowToEvent 2026 d0 badRow = none
    ∧ scrapeCalendar 2026 d0 ([goodRow] ++ badRow :: [])
        = scrapeCalendar 2026 d0 ([goodRow] ++ []) :=
  c8_two_time_formats 2026 d0 badRow [goodRow] [] (by decide)

/-- C9: the scrape output consists of exactly the rows whose currency is
in the configured target set, whose impact is in the configured acceptable
set {Medium, High}, and whose parsed Baghdad timestamp falls on today or
tomorrow; the output is sorted ascending by that timestamp. -/
theorem c9_scrape_filter_sorted (Y : Nat) (today : Date) (rows : List CalRow) :
    (∀ e, e ∈ scrapeCalendar Y today rows
      ↔ ∃ r ∈ rows, rowToEvent Y today r = some e)
    ∧ (∀ r e, rowToEvent Y today r = some e
      ↔ (r.currency ∈ targetCurrencies ∧ r.impact ∈ acceptableImpacts
         ∧ ∃ dt, parseEventDatetime Y r.dateStr = some dt
             ∧ (dt.date = today ∨ dt.date = nextDay today)
             ∧ e = mkEvent r dt))
    ∧ (scrapeCalendar Y today rows).Sorted eventLE := by
  refine ⟨?_, ?_, List.sorted_insertionSort eventLE _⟩
  · intro e
    unfold scrapeCalendar
    rw [List.mem_insertionSort, List.mem_filterMap]
  · intro r e
    by_cases hcond : r.currency ∈ targetCurrencies ∧ r.impact ∈ acceptableImpacts
    · cases hp : parseEventDatetime Y r.dateStr with
      | none =>
        simp only [rowToEvent, if_pos hcond, hp]
        constructor
        · intro h; exact absurd h (by simp)
        · rintro ⟨_, _, dt, hdt, _, _⟩
          exact Option.noConfusion hdt
      | some dt =>
        by_cases hdate : dt.date = today ∨ dt.date = nextDay today
        · simp only [rowToEvent, if_pos hcond, hp, if_pos hdate]
          constructor
          · intro h
            exact ⟨hcond.1, hcond.2, dt, rfl, hdate,
              (Option.some_inj.mp h).symm⟩
          · rintro ⟨_, _, dt2, hdt2, _, he⟩
            rw [he, ← Option.some_inj.mp hdt2]
        · simp only [rowToEvent, if_pos hcond, hp, if_neg hdate]
          constructor
          · intro h; exact absurd h (by simp)
          · rintro ⟨_, _, dt2, hdt2, hdate2, _⟩
            rw [← Option.some_inj.mp hdt2] at hdate2
            exact absurd hdate2 hdate
    · simp only [rowToEvent, if_neg hcond]
      constructor
      · intro h; exact absurd h (by simp)
      · rintro ⟨h1, h2, _⟩
        exact absurd ⟨h1, h2⟩ hcond

/-- Witness for C9 at a concrete scrape: the passing row's event is in the
output and the output is sorted. -/
theorem c9_scrape_filter_sorted_witness :
    (∀ e, e ∈ scrapeCalendar 2026 d0 [goodRow, badRow]
      ↔ ∃ r ∈ [goodRow, badRow], rowToEvent 2026 d0 r = some e)
    ∧ (∀ r e, rowToEvent 2026 d0 r = some e
      ↔ (r.currency ∈ targetCurrencies ∧ r.impact ∈ acceptableImpacts
         ∧ ∃ dt, parseEventDatetime 2026 r.dateStr = some dt
             ∧ (dt.date = d0 ∨ dt.date = nextDay d0)
             ∧ e = mkEvent r dt))
    ∧ (scrapeCalendar 2026 d0 [goodRow, badRow]).Sorted eventLE :=
  c9_scrape_filter_sorted 2026 d0 [goodRow, badRow]

/-- C10: a free-tier user who already has 3 or more active price alerts is
refused by the add-alert entry point (upgrade prompt), the alert table
being left unchanged; users on any non-free tier are not subject to the
cap. -/
theorem c10_free_tier_alert_cap (tier : String) (alerts : List PriceAlert) :
    (tier = "free" → 3 ≤ (alerts.filter (fun a => a.is_active)).length →
        (startAddAlertHandler tier alerts).1 = false
        ∧ (startAddAlertHandler tier alerts).2 = alerts)
    ∧ (tier ≠ "free" → (startAddAlertHandler tier alerts).1 = true
        ∧ (startAddAlertHandler tier alerts).2 = alerts)
    ∧ (startAddAlertHandler tier alerts).2 = alerts := by
  refine ⟨?_, ?_, ?_⟩
  · intro ht hcap
    unfold startAddAlertHandler
    rw [if_pos ht, if_pos hcap]
    exact ⟨rfl, rfl⟩
  · intro ht
    unfold startAddAlertHandler
    rw [if_neg ht]
    exact ⟨rfl, rfl⟩
  · unfold startAddAlertHandler
    by_cases ht : tier = "free"
    · rw [if_pos ht]
      by_cases hcap : 3 ≤ (alerts.filter (fun a => a.is_active)).length
      · rw [if_pos hcap]
      · rw [if_neg hcap]
    · rw [if_neg ht]

/-- Witness for C10: a free user with exactly 3 active alerts is refused;
a pro user with the same alerts proceeds. -/
theorem c10_free_tier_alert_cap_witness :
    ((startAddAlertHandler "free" [alertA, alertB, alertC]).1 = false
      ∧ (startAddAlertHandler "free" [alertA, alertB, alertC]).2
          = [alertA, alertB, alertC])
    ∧ (startAddAlertHandler "pro" [alertA, alertB, alertC]).1 = true :=
  ⟨(c10_free_tier_alert_cap "free" [alertA, alertB, alertC]).1 rfl (by decide),
   ((c10_free_tier_alert_cap "pro" [alertA, alertB, alertC]).2.1 (by decide)).1⟩

end TradingBot
